import Mathlib

/-!
Verification of the `anki` apkg-reading library.

This file gives a shallow embedding of the library's data model and of the
operations relevant to its specification: the value-coercion scanners
(`BoolInt.Scan`, `FieldValues.Scan`, `CardConstraint.UnmarshalJSON`, the keyed
JSON-map unmarshalers), the SQL queries issued by `Apkg.Notes`, `Apkg.Cards`,
`Apkg.Reviews` and `Apkg.Collection` (modelled as functions over an explicit
database state), and the resource-release logic of `DB.Close` / `Apkg.Close`
(modelled as explicit state passing over the scratch file and archive handle).
Machine integers are modelled as `Int` (no arithmetic here approaches 2^63),
Go `float64` values as `ℚ` (they are only compared with zero or truncated),
and fallible operations return `Except`/`Option`; Go runtime panics are a
separate constructor of `GoResult`.
-/

namespace Anki

/-- A raw value as delivered to an `sql.Scanner` or produced by decoding JSON
into `interface` values: the Go dynamic types that actually occur are
`int64`, `float64`, `string`, `[]byte`, `bool` and `nil`. Strings and byte
strings are byte sequences; the bytes relevant here are all single-byte
code points, so `List Char` is a faithful model. -/
inductive DbValue where
  | int (n : Int)
  | float (q : ℚ)
  | str (s : List Char)
  | bytes (s : List Char)
  | bool (b : Bool)
  | null
deriving DecidableEq

/-- `true` exactly for the numeric runtime types (`int64`, `float64`). -/
def DbValue.isNumeric : DbValue → Bool
  | .int _ => true
  | .float _ => true
  | _ => false

/-- `BoolInt.Scan` as in the older revision of the types file (`types.go`):
a `float64` or `int64` source is false exactly when zero, `nil` is false,
and every other source type is an incompatible-type error. -/
def boolIntScanOld (src : DbValue) : Except String Bool :=
  match src with
  | .float q => .ok (decide (q ≠ 0))
  | .int n => .ok (decide (n ≠ 0))
  | .null => .ok false
  | _ => .error "Incompatible type for BoolInt"

/-- `BoolInt.Scan` as in the current types file (part_003): like the older
revision, but a `bool` source is additionally accepted and passed through
unchanged. -/
def boolIntScan (src : DbValue) : Except String Bool :=
  match src with
  | .bool b => .ok b
  | .float q => .ok (decide (q ≠ 0))
  | .int n => .ok (decide (n ≠ 0))
  | .null => .ok false
  | _ => .error "Incompatible type for BoolInt"

/-- The field-separator character 0x1F used in the `flds` column. -/
def fieldSep : Char := '\x1f'

/-- Go `strings.Split` with a single-element separator: split around each
occurrence of `sep`; the empty input yields one empty part. -/
def goSplit (sep : Char) : List Char → List (List Char)
  | [] => [[]]
  | b :: rest =>
    if b = sep then [] :: goSplit sep rest
    else
      match goSplit sep rest with
      | [] => [[b]]
      | part :: parts => (b :: part) :: parts

/-- Go `strings.Join` with a single-element separator: concatenate the parts
with `sep` between consecutive parts. -/
def goJoin (sep : Char) : List (List Char) → List Char
  | [] => []
  | [part] => part
  | part :: parts => part ++ sep :: goJoin sep parts

/-- `FieldValues.Scan`: a `string` or `[]byte` source is split on the 0x1F
separator into the ordered list of field values; any other source type is an
incompatible-type error. -/
def fieldValuesScan (src : DbValue) : Except String (List (List Char)) :=
  match src with
  | .bytes s => .ok (goSplit fieldSep s)
  | .str s => .ok (goSplit fieldSep s)
  | _ => .error "Incompatible type for FieldValues"

/-- A JSON document, as decoded by `encoding/json` into `interface` values. -/
inductive Json where
  | num (q : ℚ)
  | str (s : String)
  | jbool (b : Bool)
  | null
  | arr (elems : List Json)
  | obj (members : List (String × Json))

/-- Outcome of running a piece of Go code: a value, a returned error, or a
runtime panic. -/
inductive GoResult (α : Type) where
  | ok (a : α)
  | err (msg : String)
  | panicked (msg : String)
deriving DecidableEq

/-- `true` exactly when the computation panicked. -/
def GoResult.isPanic : GoResult α → Bool
  | .panicked _ => true
  | _ => false

/-- Go conversion `int(f)` applied to a decoded JSON number: truncation
toward zero (`Int` division in Lean truncates toward zero). -/
def goInt (q : ℚ) : Int := q.num / q.den

structure CardConstraint where
  index : Int := 0
  matchType : String := ""
  fields : List Int := []
deriving DecidableEq

/-- The loop `for i, v := range tmpAry` with `c.Fields[i] = int(v.(float64))`:
converts every element, panicking (modelled as `none`) at the first element
that is not a JSON number. -/
def jsonNumsToInts : List Json → Option (List Int)
  | [] => some []
  | .num q :: rest => (jsonNumsToInts rest).map (fun is => goInt q :: is)
  | _ => none

/-- `CardConstraint.UnmarshalJSON`: unmarshal into a `make([]interface, 3)`
slice, then read `tmp[0].(float64)`, `tmp[1].(string)` and
`tmp[2].([]interface)` without any length or type checks.
`json.Unmarshal` resizes the slice to the length of the JSON array (and
zeroes it to `nil` for JSON `null`), so an array with fewer than three
elements makes the indexing panic, and an element of the wrong dynamic type
makes the type assertion panic. A non-array document is an `Unmarshal`
error and returns before any indexing. -/
def cardConstraintUnmarshalJSON (src : Json) : GoResult CardConstraint :=
  match src with
  | .num _ => .err "json: cannot unmarshal number into Go value of type slice"
  | .str _ => .err "json: cannot unmarshal string into Go value of type slice"
  | .jbool _ => .err "json: cannot unmarshal bool into Go value of type slice"
  | .obj _ => .err "json: cannot unmarshal object into Go value of type slice"
  | .null => .panicked "runtime error: index out of range"
  | .arr tmp =>
    match tmp[0]? with
    | none => .panicked "runtime error: index out of range"
    | some (Json.num q0) =>
      match tmp[1]? with
      | none => .panicked "runtime error: index out of range"
      | some (Json.str mt) =>
        match tmp[2]? with
        | none => .panicked "runtime error: index out of range"
        | some (Json.arr fs) =>
          match jsonNumsToInts fs with
          | some is => .ok { index := goInt q0, matchType := mt, fields := is }
          | none => .panicked "interface conversion: interface is not float64"
        | some _ => .panicked "interface conversion: interface is not a slice"
      | some _ => .panicked "interface conversion: interface is not string"
    | some _ => .panicked "interface conversion: interface is not float64"

/-! ### The decoded JSON data model (Model, Deck, DeckConfig)

Structure fields carry the Go zero value as default, matching what
`encoding/json` leaves in place for absent members. `*TimestampSeconds`
pointer fields are `Option Int` (seconds), `float32`/`float64` fields are
`ℚ`, `BoolInt` fields are `Bool`, `[2]int` fields are pairs. -/

structure Field where
  name : String := ""
  sticky : Bool := false
  rtl : Bool := false
  ordinal : Int := 0
  font : String := ""
  fontSize : Int := 0
deriving DecidableEq

structure Template where
  name : String := ""
  ordinal : Int := 0
  questionFormat : String := ""
  answerFormat : String := ""
  browserQuestionFormat : String := ""
  browserAnswerFormat : String := ""
  deckOverride : Int := 0
deriving DecidableEq

structure Model where
  id : Int := 0
  name : String := ""
  tags : List String := []
  deckID : Int := 0
  fields : List Field := []
  sortField : Int := 0
  templates : List Template := []
  type : Int := 0
  latexPre : String := ""
  latexPost : String := ""
  css : String := ""
  modified : Option Int := none
  requiredFields : List CardConstraint := []
  updateSequence : Int := 0
deriving DecidableEq

structure DeckConfigLapses where
  leechFails : Int := 0
  minimumInterval : Int := 0
  leechAction : Int := 0
  delays : List Int := []
  newInterval : ℚ := 0
deriving DecidableEq

structure DeckConfigReviews where
  perDay : Int := 0
  fuzz : ℚ := 0
  intervalModifier : ℚ := 0
  maxInterval : Int := 0
  easyBonus : ℚ := 0
  bury : Bool := false
deriving DecidableEq

structure DeckConfigNew where
  perDay : Int := 0
  delays : List Int := []
  bury : Bool := false
  separate : Bool := false
  intervals : Int × Int × Int := (0, 0, 0)
  initialFactor : ℚ := 0
  order : Int := 0
deriving DecidableEq

structure DeckConfig where
  id : Int := 0
  name : String := ""
  replayAudio : Bool := false
  showTimer : Bool := false
  maxAnswerSeconds : Int := 0
  modified : Option Int := none
  autoPlay : Bool := false
  lapses : DeckConfigLapses := {}
  reviews : DeckConfigReviews := {}
  new : DeckConfigNew := {}
deriving DecidableEq

structure Deck where
  id : Int := 0
  name : String := ""
  description : String := ""
  modified : Option Int := none
  updateSequence : Int := 0
  collapsed : Bool := false
  browserCollapsed : Bool := false
  extendedNewCardLimit : Int := 0
  extendedReviewCardLimit : Int := 0
  dynamic : Bool := false
  configID : Int := 0
  newToday : Int × Int := (0, 0)
  reviewsToday : Int × Int := (0, 0)
  learnToday : Int × Int := (0, 0)
  timeToday : Int × Int := (0, 0)
  config : Option DeckConfig := none
deriving DecidableEq

/-! ### Keyed JSON-map unmarshaling (Models / Decks / DeckConfigs)

`Models.UnmarshalJSON`, `Decks.UnmarshalJSON` and `DeckConfigs.UnmarshalJSON`
share one shape: decode into a Go `map[string]V`, then iterate its entries
and insert each value `v` into a fresh map at key `v.ID`, discarding the JSON
string key. The decoded Go map is modelled as an association list of
string-keyed entries in some iteration order; the identifier-keyed map under
construction as an association list with insert-or-overwrite. -/

/-- Go map assignment `m[k] = v`: overwrite the entry for `k` when present,
otherwise add one. -/
def goMapInsert (m : List (Int × α)) (k : Int) (v : α) : List (Int × α) :=
  if m.any (fun p => p.1 == k) then m.map (fun p => if p.1 == k then (k, v) else p)
  else m ++ [(k, v)]

/-- Go map read `m[k]`. -/
def mapFind (m : List (Int × α)) (k : Int) : Option α :=
  (m.find? (fun p => p.1 == k)).map Prod.snd

/-- The common body of the three keyed unmarshalers: `for _, v := range tmp`
with `newMap[getID v] = v`. -/
def keyByID (getID : α → Int) (tmp : List (String × α)) : List (Int × α) :=
  tmp.foldl (fun acc kv => goMapInsert acc (getID kv.2) kv.2) []

/-- `Models.UnmarshalJSON` applied to a decoded `map[string]Model`. -/
def modelsUnmarshalJSON (tmp : List (String × Model)) : List (Int × Model) :=
  keyByID Model.id tmp

/-- `Decks.UnmarshalJSON` applied to a decoded `map[string]Deck`. -/
def decksUnmarshalJSON (tmp : List (String × Deck)) : List (Int × Deck) :=
  keyByID Deck.id tmp

/-- `DeckConfigs.UnmarshalJSON` applied to a decoded `map[string]DeckConfig`. -/
def deckConfigsUnmarshalJSON (tmp : List (String × DeckConfig)) : List (Int × DeckConfig) :=
  keyByID DeckConfig.id tmp

/-! ### The embedded database and the Assembler queries

One row type per table of the required schema (`flags`/`data` columns, never
selected, are omitted). All columns are declared NOT NULL in the schema, so
they are plain `Int`/`String`. -/

structure GraveRow where
  usn : Int
  oid : Int
  type : Int
deriving DecidableEq

structure NoteRow where
  id : Int
  guid : String
  mid : Int
  mod : Int
  usn : Int
  tags : String
  flds : String
  sfld : String
  csum : Int
deriving DecidableEq

structure CardRow where
  id : Int := 0
  nid : Int := 0
  did : Int := 0
  ord : Int := 0
  mod : Int := 0
  usn : Int := 0
  type : Int := 0
  queue : Int := 0
  due : Int := 0
  ivl : Int := 0
  factor : Int := 0
  reps : Int := 0
  lapses : Int := 0
  left : Int := 0
  odue : Int := 0
  odid : Int := 0
deriving DecidableEq

structure RevlogRow where
  id : Int := 0
  cid : Int := 0
  usn : Int := 0
  ease : Int := 0
  ivl : Int := 0
  lastIvl : Int := 0
  factor : Int := 0
  time : Int := 0
  type : Int := 0
deriving DecidableEq

/-- The decoded singleton `col` row: its creation time plus the decoded JSON
collections that `Apkg.Collection` consults. -/
structure ColData where
  crt : Int := 0
  models : List (Int × Model) := []
  decks : List Deck := []
  deckConfigs : List DeckConfig := []

/-- The tables of one opened package. -/
structure ApkgDB where
  col : ColData := {}
  notes : List NoteRow := []
  cards : List CardRow := []
  revlog : List RevlogRow := []
  graves : List GraveRow := []

/-- Insert into a list sorted descending by `key` (used to model
`ORDER BY id DESC`). -/
def insertByKeyDesc (key : α → Int) (a : α) : List α → List α
  | [] => [a]
  | b :: l => if key b ≤ key a then a :: b :: l else b :: insertByKeyDesc key a l

/-- Sort descending by `key`, modelling `ORDER BY id DESC`. -/
def sortByKeyDesc (key : α → Int) (l : List α) : List α :=
  l.foldr (insertByKeyDesc key) []

/-- `Apkg.Notes`:
`SELECT n.* FROM notes n LEFT JOIN graves g ON g.oid=n.id AND g.type=1
ORDER BY id DESC`. The query joins `graves` but has no `WHERE` clause, so the
left join keeps every note row: a note with a matching note-type tombstone is
still emitted (once per matching grave row); only notes without a tombstone
are emitted exactly once via the null-extended branch of the left join. -/
def notesQuery (db : ApkgDB) : List NoteRow :=
  (sortByKeyDesc NoteRow.id db.notes).flatMap (fun n =>
    let gs := db.graves.filter (fun g => g.oid == n.id && g.type == 1)
    if gs.isEmpty then [n] else gs.map (fun _ => n))

/-- The `CASE c.type WHEN 0 THEN NULL WHEN 1 THEN raw WHEN 2 THEN
raw*24*60*60+(SELECT crt FROM col) END` expression used for `due` and
`odue`. -/
def cardDue (ty raw crt : Int) : Option Int :=
  if ty == 0 then none
  else if ty == 1 then some raw
  else if ty == 2 then some (raw * 24 * 60 * 60 + crt)
  else none

/-- The `CASE WHEN c.ivl == 0 THEN NULL WHEN c.ivl < 0 THEN -ivl ELSE
c.ivl*24*60*60 END` expression. -/
def cardIvl (raw : Int) : Option Int :=
  if raw == 0 then none
  else if raw < 0 then some (-raw)
  else some (raw * 24 * 60 * 60)

/-- A row of the `Apkg.Cards` result set, with the derived columns. -/
structure CardOut where
  id : Int
  nid : Int
  did : Int
  ord : Int
  mod : Int
  usn : Int
  type : Int
  queue : Int
  reps : Int
  lapses : Int
  left : Int
  odid : Int
  factor : ℚ
  due : Option Int
  ivl : Option Int
  odue : Option Int
deriving DecidableEq

/-- The derived columns of the cards query: `CAST(c.factor AS real)/1000` and
the three `CASE` expressions. -/
def deriveCard (crt : Int) (c : CardRow) : CardOut :=
  { id := c.id, nid := c.nid, did := c.did, ord := c.ord, mod := c.mod,
    usn := c.usn, type := c.type, queue := c.queue, reps := c.reps,
    lapses := c.lapses, left := c.left, odid := c.odid,
    factor := (c.factor : ℚ) / 1000,
    due := cardDue c.type c.due crt,
    ivl := cardIvl c.ivl,
    odue := cardDue c.type c.odue crt }

/-- `Apkg.Cards`:
`... FROM cards c LEFT JOIN graves g ON g.oid=c.id AND g.type=0
WHERE g.oid IS NULL ORDER BY id DESC` — the `WHERE g.oid IS NULL` clause
makes this an anti-join keeping exactly the cards without a card-type
tombstone. -/
def cardsQuery (db : ApkgDB) : List CardOut :=
  (sortByKeyDesc CardRow.id
      (db.cards.filter (fun c =>
        (db.graves.filter (fun g => g.oid == c.id && g.type == 0)).isEmpty))).map
    (deriveCard db.col.crt)

/-- The `CASE WHEN r.ivl < 0 THEN -ivl ELSE r.ivl*24*60*60 END` expression. -/
def reviewIvl (ivl : Int) : Int :=
  if ivl < 0 then -ivl else ivl * 24 * 60 * 60

/-- The `CASE WHEN r.lastIvl < 0 THEN -ivl ELSE r.lastIvl*24*60*60 END`
expression. Note that the negative branch of the source SQL reads `-ivl` —
the `ivl` column — not `-lastIvl`. -/
def reviewLastIvl (ivl lastIvl : Int) : Int :=
  if lastIvl < 0 then -ivl else lastIvl * 24 * 60 * 60

/-- A row of the `Apkg.Reviews` result set, with the derived columns. -/
structure ReviewOut where
  id : Int
  cid : Int
  usn : Int
  ease : Int
  time : Int
  type : Int
  factor : ℚ
  ivl : Int
  lastIvl : Int
deriving DecidableEq

/-- The derived columns of the reviews query. -/
def deriveReview (r : RevlogRow) : ReviewOut :=
  { id := r.id, cid := r.cid, usn := r.usn, ease := r.ease, time := r.time,
    type := r.type, factor := (r.factor : ℚ) / 1000,
    ivl := reviewIvl r.ivl,
    lastIvl := reviewLastIvl r.ivl r.lastIvl }

/-- `Apkg.Reviews`:
`... FROM revlog r LEFT JOIN graves g ON g.oid=r.cid AND g.type=0
WHERE g.oid IS NULL ORDER BY id DESC` — reviews of tombstoned cards are
excluded by the anti-join. -/
def reviewsQuery (db : ApkgDB) : List ReviewOut :=
  (sortByKeyDesc RevlogRow.id
      (db.revlog.filter (fun r =>
        (db.graves.filter (fun g => g.oid == r.cid && g.type == 0)).isEmpty))).map
    deriveReview

/-! ### `Apkg.Collection` -/

/-- Outcome of `Apkg.Collection`. -/
inductive CollectionResult where
  | panicked
  | integrityError (deckID configID : Int)
  | ok (decks : List Deck)
deriving DecidableEq

/-- The per-deck resolution loop: `conf, ok := collection.DeckConfigs[deck.ConfigID]`,
returning the referential-integrity error for the first deck whose config
reference is dangling, and otherwise setting `deck.Config = conf`. -/
def resolveDecks (configs : List DeckConfig) : List Deck → Except (Int × Int) (List Deck)
  | [] => .ok []
  | d :: rest =>
    match configs.find? (fun c => c.id == d.configID) with
    | none => .error (d.id, d.configID)
    | some c =>
      match resolveDecks configs rest with
      | .ok ds => .ok ({ d with config := some c } :: ds)
      | .error e => .error e

/-- `Apkg.Collection`: first `SELECT oid FROM graves WHERE type=2` is scanned
with `var id *ID; rows.Scan(id)` — the destination is a nil `*ID`, so scanning
the first deck-tombstone row dereferences a nil pointer inside `ID.Scan` and
panics. Only when the package holds no deck-type tombstone does the call get
past that loop (with an empty deleted-decks list, so no deck is ever dropped),
and every decoded deck then has its config resolved. -/
def collectionAssemble (db : ApkgDB) : CollectionResult :=
  if (db.graves.filter (fun g => g.type == 2)).isEmpty then
    match resolveDecks db.col.deckConfigs db.col.decks with
    | .ok ds => .ok ds
    | .error e => .integrityError e.1 e.2
  else .panicked

/-! ### `DB.Close` and `Apkg.Close`

The state the close path touches: whether the scratch SQLite file still
exists on disk, and whether the zip archive's underlying file handle is
still open. `database/sql`'s `Close` is idempotent (a repeated close returns
nil), so its result carries no error. -/

structure OSState where
  scratchExists : Bool
  zipHandleOpen : Bool
deriving DecidableEq

inductive CloseError where
  | noSuchFile
  | fileAlreadyClosed
deriving DecidableEq

/-- `os.Remove(db.tmpFile)`: fails when the file no longer exists; in either
case the file does not exist afterwards. -/
def osRemove (w : OSState) : OSState × Option CloseError :=
  if w.scratchExists then ({ w with scratchExists := false }, none)
  else (w, some .noSuchFile)

/-- `db.DB.Close()` (the `sqlx`/`database/sql` handle): documented to be safe
to call repeatedly, returning nil. -/
def sqlCloseResult : Option CloseError := none

/-- `zip.ReadCloser.Close`, i.e. `os.File.Close` on the archive file: fails
with an already-closed error on a second call. -/
def zipCloserClose (w : OSState) : OSState × Option CloseError :=
  if w.zipHandleOpen then ({ w with zipHandleOpen := false }, none)
  else (w, some .fileAlreadyClosed)

/-- The `DB` struct: its scratch file name and whether the embedded
`sqlx.DB` is non-nil. -/
structure DBHandle where
  tmpFile : String
  hasDB : Bool
deriving DecidableEq

/-- `DB.Close`: remove the scratch file when the name is nonempty, then close
the engine handle when present. Each failing step assigns the named return
`e`, so a later failure overwrites an earlier one. -/
def dbClose (d : DBHandle) (w : OSState) : OSState × Option CloseError :=
  let r1 := if d.tmpFile ≠ "" then osRemove w else (w, none)
  let e2 := if d.hasDB then sqlCloseResult else none
  (r1.1, if e2.isSome then e2 else r1.2)

/-- The `Apkg` struct fields that `Close` consults: the `db` handle and
whether a `zip.ReadCloser` exists (`ReadFile` sets one; `ReadBytes` and
`ReadReader` leave it nil). -/
structure ApkgHandle where
  db : Option DBHandle
  hasCloser : Bool
deriving DecidableEq

/-- `Apkg.Close`: close the database when non-nil, then the zip read-closer
when non-nil. Each failing step assigns the named return `e`, so a later
failure overwrites an earlier one. Nothing is set to nil, so a second call
repeats both steps. -/
def apkgClose (a : ApkgHandle) (w : OSState) : OSState × Option CloseError :=
  let r1 := match a.db with
    | some d => dbClose d w
    | none => (w, none)
  let r2 := if a.hasCloser then zipCloserClose r1.1 else (r1.1, none)
  (r2.1, if r2.2.isSome then r2.2 else r1.2)

/-! ### Concrete package states and values used by the claim theorems -/

/-- A note whose ID 1 also appears in `graves` with the note discriminator. -/
def exNote1 : NoteRow :=
  { id := 1, guid := "q3Fz", mid := 10, mod := 1398130088, usn := -1,
    tags := "", flds := "front\x1fback", sfld := "front", csum := 12345 }

/-- A package holding one tombstoned note (grave type 1) and one tombstoned
card (grave type 0). -/
def exDB1 : ApkgDB :=
  { notes := [exNote1],
    cards := [{ id := 2, nid := 1, did := 4, factor := 2500 }],
    graves := [{ usn := -1, oid := 1, type := 1 }, { usn := -1, oid := 2, type := 0 }] }

/-- A package holding one review with a positive raw `ivl` (7 days) and a
negative raw `lastIvl` (60 seconds, stored negated). -/
def exDB2 : ApkgDB :=
  { revlog := [{ id := 500, cid := 7, ease := 3, ivl := 7, lastIvl := -60,
                 factor := 2500, time := 4500, type := 1 }] }

/-- A package holding one New-type card (type 0) with a nonzero raw `due`. -/
def exDB3 : ApkgDB :=
  { col := { crt := 1000 },
    cards := [{ id := 3, nid := 1, did := 4, type := 0, due := 12345, ivl := 5,
                factor := 2500, odue := 99 }] }

def exConf1 : DeckConfig := { id := 1, name := "Default" }

def exDeck5 : Deck := { id := 5, name := "Deck five", configID := 1 }

/-- A package whose graves table holds a deck-type tombstone for deck 5. -/
def exDB4 : ApkgDB :=
  { col := { decks := [exDeck5], deckConfigs := [exConf1] },
    graves := [{ usn := -1, oid := 5, type := 2 }] }

/-- The same package without the deck tombstone. -/
def exDB4clean : ApkgDB :=
  { col := { decks := [exDeck5], deckConfigs := [exConf1] } }

/-- A package with a deck whose config reference is dangling. -/
def exDB4dangling : ApkgDB :=
  { col := { decks := [{ id := 6, configID := 9 }], deckConfigs := [exConf1] } }

/-- The OS state right after a successful open: scratch file on disk, archive
file handle open. -/
def freshOS : OSState := { scratchExists := true, zipHandleOpen := true }

/-- The OS state after both resources are gone. -/
def drainedOS : OSState := { scratchExists := false, zipHandleOpen := false }

/-- The handle produced by `ReadFile` on a valid archive: a database with a
scratch file, plus a `zip.ReadCloser`. -/
def fileApkg : ApkgHandle :=
  { db := some { tmpFile := "/tmp/a", hasDB := true }, hasCloser := true }

/-- The handle produced by `ReadBytes`/`ReadReader` on a valid archive: a
database with a scratch file, no `zip.ReadCloser`. -/
def readerApkg : ApkgHandle :=
  { db := some { tmpFile := "/tmp/a", hasDB := true }, hasCloser := false }

/-- Two distinct decoded models sharing the `id` 1. -/
def modelX : Model := { id := 1, name := "x" }

def modelY : Model := { id := 1, name := "y" }

/-- A decoded `map[string]Model` whose two entries carry the same inner id. -/
def dupModels : List (String × Model) := [("a", modelX), ("b", modelY)]

/-! ### Helper lemmas -/

theorem goSplit_ne_nil (sep : Char) (l : List Char) : goSplit sep l ≠ [] := by
  induction l with
  | nil => simp [goSplit]
  | cons b rest ih =>
    by_cases h : b = sep
    · simp [goSplit, h]
    · simp only [goSplit, if_neg h]
      cases hs : goSplit sep rest with
      | nil => simp
      | cons p ps => simp

theorem goJoin_cons_cons (sep b : Char) (p : List Char) (ps : List (List Char)) :
    goJoin sep ((b :: p) :: ps) = b :: goJoin sep (p :: ps) := by
  cases ps <;> simp [goJoin]

theorem goJoin_goSplit (sep : Char) (l : List Char) : goJoin sep (goSplit sep l) = l := by
  induction l with
  | nil => rfl
  | cons b rest ih =>
    by_cases h : b = sep
    · subst h
      simp only [goSplit, if_pos rfl]
      cases hs : goSplit b rest with
      | nil => exact absurd hs (goSplit_ne_nil b rest)
      | cons p ps =>
        rw [hs] at ih
        simpa [goJoin] using ih
    · simp only [goSplit, if_neg h]
      cases hs : goSplit sep rest with
      | nil => exact absurd hs (goSplit_ne_nil sep rest)
      | cons p ps =>
        rw [hs] at ih
        rw [goJoin_cons_cons, ih]

theorem goMapInsert_fresh (m : List (Int × α)) (k : Int) (v : α)
    (h : m.any (fun p => p.1 == k) = false) :
    goMapInsert m k v = m ++ [(k, v)] := by
  simp [goMapInsert, h]

theorem keyByID_go (getID : α → Int) :
    ∀ (tmp : List (String × α)) (acc : List (Int × α)),
      (∀ kv ∈ tmp, acc.any (fun p => p.1 == getID kv.2) = false) →
      (tmp.map (fun kv => getID kv.2)).Nodup →
      tmp.foldl (fun acc kv => goMapInsert acc (getID kv.2) kv.2) acc
        = acc ++ tmp.map (fun kv => (getID kv.2, kv.2)) := by
  intro tmp
  induction tmp with
  | nil => intro acc _ _; simp
  | cons kv rest ih =>
    intro acc hfresh hnodup
    have h0 := hfresh kv (List.mem_cons_self kv rest)
    have hnd : getID kv.2 ∉ rest.map (fun kv2 => getID kv2.2)
        ∧ (rest.map (fun kv2 => getID kv2.2)).Nodup := by
      simpa [List.nodup_cons] using hnodup
    rw [List.foldl_cons, goMapInsert_fresh _ _ _ h0,
      ih (acc ++ [(getID kv.2, kv.2)]) ?_ hnd.2]
    · simp
    · intro kv2 hm
      have hacc := hfresh kv2 (List.mem_cons_of_mem kv hm)
      have hne : (getID kv.2 == getID kv2.2) = false := by
        refine beq_eq_false_iff_ne.mpr fun he => hnd.1 ?_
        rw [he]
        exact List.mem_map_of_mem _ hm
      simp [List.any_append, hacc, hne]

theorem mapFind_keyed (getID : α → Int) (tmp : List (String × α)) :
    (tmp.map (fun kv => getID kv.2)).Nodup →
    ∀ kv ∈ tmp, mapFind (tmp.map (fun kv2 => (getID kv2.2, kv2.2))) (getID kv.2) = some kv.2 := by
  induction tmp with
  | nil => intro _ kv h; cases h
  | cons kv0 rest ih =>
    intro hnodup kv hmem
    have hnd : getID kv0.2 ∉ rest.map (fun kv2 => getID kv2.2)
        ∧ (rest.map (fun kv2 => getID kv2.2)).Nodup := by
      simpa [List.nodup_cons] using hnodup
    rcases List.mem_cons.mp hmem with he | hm
    · subst he
      simp [mapFind]
    · have hne : (getID kv0.2 == getID kv.2) = false := by
        refine beq_eq_false_iff_ne.mpr fun he => hnd.1 ?_
        rw [he]
        exact List.mem_map_of_mem _ hm
      simp only [List.map_cons, mapFind, List.find?_cons, hne]
      exact ih hnd.2 kv hm

theorem keyByID_find (getID : α → Int) (tmp : List (String × α))
    (h : (tmp.map (fun kv => getID kv.2)).Nodup) :
    ∀ kv ∈ tmp, mapFind (keyByID getID tmp) (getID kv.2) = some kv.2 := by
  intro kv hm
  rw [keyByID, keyByID_go getID tmp [] (by simp) h, List.nil_append]
  exact mapFind_keyed getID tmp h kv hm

theorem osRemove_scratch (w : OSState) : (osRemove w).1.scratchExists = false := by
  by_cases h : w.scratchExists <;> simp [osRemove, h]

theorem zipCloserClose_zip (w : OSState) : (zipCloserClose w).1.zipHandleOpen = false := by
  by_cases h : w.zipHandleOpen <;> simp [zipCloserClose, h]

theorem zipCloserClose_scratch (w : OSState) :
    (zipCloserClose w).1.scratchExists = w.scratchExists := by
  by_cases h : w.zipHandleOpen <;> simp [zipCloserClose, h]

theorem dbClose_scratch (d : DBHandle) (w : OSState) (h : d.tmpFile ≠ "") :
    (dbClose d w).1.scratchExists = false := by
  simp [dbClose, if_pos h, osRemove_scratch]

/-! ### Claim theorems -/

/-- C1 (code-bug evaluation): in a package where note 1 carries a note-type
tombstone and card 2 a card-type tombstone, the Cards cursor excludes the
tombstoned card, but the Notes cursor still yields the tombstoned note: the
Notes query joins `graves` yet lacks the `WHERE g.oid IS NULL` filter that
the Cards query has. -/
theorem notes_tombstone_not_excluded :
    ((notesQuery exDB1).map NoteRow.id).contains 1 = true
  ∧ ((cardsQuery exDB1).map CardOut.id).contains 2 = false := by
  decide

/-- C2 (code-bug evaluation): for a review with raw `ivl` 7 (days) and raw
`lastIvl` -60 (negated seconds), the derived interval follows the stated rule
(7*86400), but the derived last-interval is -7 — negative, and neither 60 nor
-60*86400 — because the negative branch of the `lastIvl` CASE negates the
`ivl` column instead of `lastIvl`. -/
theorem review_lastIvl_uses_wrong_column :
    (reviewsQuery exDB2).map ReviewOut.ivl = [7 * 86400]
  ∧ (reviewsQuery exDB2).map ReviewOut.lastIvl = [-7]
  ∧ ¬ (∀ x ∈ (reviewsQuery exDB2).map ReviewOut.lastIvl, 0 ≤ x) := by
  decide

/-- C3 (code-bug evaluation): a New-type card (type 0) with raw due 12345 is
yielded with derived due NULL (`none`), not 0: the SQL CASE maps type 0 to
NULL and the nil-able Go field stays nil, although the `Card` documentation
says the due time is converted to 0. -/
theorem new_card_due_null_not_zero :
    (cardsQuery exDB3).map CardOut.due = [none]
  ∧ (cardsQuery exDB3).map CardOut.due ≠ [some 0] := by
  decide

/-- C4 (code-bug evaluation): with a deck-type tombstone in `graves`,
`Collection` panics while scanning the tombstone row into a nil `*ID`
(so the tombstoned deck is not dropped and no Collection is assembled);
without tombstones the decks get their configs resolved by ID, and a dangling
config reference fails the whole assembly. -/
theorem collection_deck_tombstone_panics :
    collectionAssemble exDB4 = CollectionResult.panicked
  ∧ collectionAssemble exDB4clean
      = CollectionResult.ok [{ exDeck5 with config := some exConf1 }]
  ∧ collectionAssemble exDB4dangling = CollectionResult.integrityError 6 9 := by
  decide

/-- C5 (code-bug evaluation): the first Close of a freshly opened package
(both the `ReadFile` shape with a zip read-closer and the `ReadBytes`/
`ReadReader` shape without one) returns no error, but the second Close
returns an error: `Close` marks nothing as closed, so the second call
re-removes the already-removed scratch file and re-closes the already-closed
archive handle. -/
theorem apkg_close_second_call_fails :
    (apkgClose fileApkg freshOS).2 = none
  ∧ (apkgClose fileApkg (apkgClose fileApkg freshOS).1).2
      = some CloseError.fileAlreadyClosed
  ∧ (apkgClose readerApkg freshOS).2 = none
  ∧ (apkgClose readerApkg (apkgClose readerApkg freshOS).1).2
      = some CloseError.noSuchFile := by
  decide

/-- C6 counterexample: when both release steps fail (scratch file already
gone, archive handle already closed), the scratch-removal step fails first
with `noSuchFile`, yet `Apkg.Close` returns the later zip-close failure, not
that first failure. -/
theorem apkgClose_masks_first_failure :
    (osRemove drainedOS).2 = some CloseError.noSuchFile
  ∧ (zipCloserClose drainedOS).2 = some CloseError.fileAlreadyClosed
  ∧ (apkgClose fileApkg drainedOS).2 ≠ (osRemove drainedOS).2
  ∧ (apkgClose fileApkg drainedOS).2 = (zipCloserClose drainedOS).2 := by
  decide

/-- C6 amended: during close, release of every resource is attempted
regardless of earlier failures, and when both the scratch-removal and the
zip-close steps fail, the error returned is the later (zip-close) failure,
which masks the earlier one. -/
theorem apkgClose_attempts_all_reports_last (a : ApkgHandle) (w : OSState) :
    (∀ d, a.db = some d → d.tmpFile ≠ "" → (apkgClose a w).1.scratchExists = false)
  ∧ (a.hasCloser = true → (apkgClose a w).1.zipHandleOpen = false)
  ∧ (∀ d, a.db = some d → a.hasCloser = true →
      (dbClose d w).2.isSome = true → (zipCloserClose (dbClose d w).1).2.isSome = true →
      (apkgClose a w).2 = (zipCloserClose (dbClose d w).1).2) := by
  refine ⟨?_, ?_, ?_⟩
  · rintro d hd hne
    rcases a with ⟨adb, ac⟩
    cases hd
    by_cases hc : ac <;>
      simp [apkgClose, hc, zipCloserClose_scratch, dbClose_scratch _ _ hne]
  · intro hc
    rcases a with ⟨adb, ac⟩
    cases hc
    cases adb <;> simp [apkgClose, zipCloserClose_zip]
  · rintro d hd hc h1 h2
    rcases a with ⟨adb, ac⟩
    cases hd
    cases hc
    simp [apkgClose, h2]

/-- Witness for the C6 amended theorem at a concrete handle and OS state. -/
theorem apkgClose_attempts_all_reports_last_witness :
    (apkgClose fileApkg drainedOS).1.scratchExists = false
  ∧ (apkgClose fileApkg drainedOS).1.zipHandleOpen = false
  ∧ (apkgClose fileApkg drainedOS).2
      = (zipCloserClose (dbClose { tmpFile := "/tmp/a", hasDB := true } drainedOS).1).2 := by
  have h := apkgClose_attempts_all_reports_last fileApkg drainedOS
  exact ⟨h.1 _ rfl (by decide), h.2.1 rfl, h.2.2 _ rfl rfl (by decide) (by decide)⟩

/-- C7: splitting a field blob on the 0x1F separator and rejoining the parts
with the same separator reproduces the blob exactly, for every input string
and byte string (including empty inputs and inputs with leading, trailing or
consecutive separators). -/
theorem fieldValues_split_join_roundtrip (s : List Char) :
    (fieldValuesScan (.str s)).map (goJoin fieldSep) = .ok s
  ∧ (fieldValuesScan (.bytes s)).map (goJoin fieldSep) = .ok s := by
  constructor <;> simp [fieldValuesScan, Except.map, goJoin_goSplit]

/-- C8 counterexample: a decoded JSON object with two entries whose values
share the id 1 does not place each decoded value at its id — one of the two
values is lost when the second insert overwrites the first. -/
theorem keyedUnmarshal_duplicate_id_loses_value :
    ¬ (∀ kv ∈ dupModels, mapFind (modelsUnmarshalJSON dupModels) kv.2.id = some kv.2) := by
  decide

/-- C8 amended: for every decoded JSON object whose values carry pairwise
distinct `id` fields, each of the three keyed unmarshalers (Models, Decks,
DeckConfigs) discards the JSON string keys and places every decoded value v
at key v.id in the resulting map. -/
theorem keyedUnmarshal_keys_by_decoded_id :
    (∀ tmp : List (String × Model), (tmp.map (fun kv => kv.2.id)).Nodup →
      ∀ kv ∈ tmp, mapFind (modelsUnmarshalJSON tmp) kv.2.id = some kv.2)
  ∧ (∀ tmp : List (String × Deck), (tmp.map (fun kv => kv.2.id)).Nodup →
      ∀ kv ∈ tmp, mapFind (decksUnmarshalJSON tmp) kv.2.id = some kv.2)
  ∧ (∀ tmp : List (String × DeckConfig), (tmp.map (fun kv => kv.2.id)).Nodup →
      ∀ kv ∈ tmp, mapFind (deckConfigsUnmarshalJSON tmp) kv.2.id = some kv.2) :=
  ⟨fun tmp h => keyByID_find Model.id tmp h,
   fun tmp h => keyByID_find Deck.id tmp h,
   fun tmp h => keyByID_find DeckConfig.id tmp h⟩

/-- Witness for the C8 amended theorem at a concrete one-entry object. -/
theorem keyedUnmarshal_keys_by_decoded_id_witness :
    mapFind (modelsUnmarshalJSON [("7", modelX)]) modelX.id = some modelX :=
  keyedUnmarshal_keys_by_decoded_id.1 [("7", modelX)] (by simp) ("7", modelX) (by simp)

/-- C9 counterexample: a `bool` source value is not numeric and not null, yet
the current `BoolInt.Scan` accepts it instead of returning a type error. -/
theorem boolIntScan_accepts_bool_cex :
    ¬ (∀ src : DbValue, src.isNumeric = false → src ≠ DbValue.null →
        ∃ msg, boolIntScan src = .error msg) := by
  intro h
  rcases h (DbValue.bool true) rfl (by decide) with ⟨msg, hmsg⟩
  simp [boolIntScan] at hmsg

/-- C9 amended: the flag coercion maps zero numeric values and null to false,
nonzero numeric values to true, passes a boolean source through unchanged,
and returns a type error for any other non-numeric source. -/
theorem boolIntScan_characterization :
    (∀ n : Int, boolIntScan (.int n) = .ok (decide (n ≠ 0)))
  ∧ (∀ q : ℚ, boolIntScan (.float q) = .ok (decide (q ≠ 0)))
  ∧ boolIntScan .null = .ok false
  ∧ (∀ b : Bool, boolIntScan (.bool b) = .ok b)
  ∧ (∀ s : List Char, boolIntScan (.str s) = .error "Incompatible type for BoolInt")
  ∧ (∀ s : List Char, boolIntScan (.bytes s) = .error "Incompatible type for BoolInt") :=
  ⟨fun _ => rfl, fun _ => rfl, rfl, fun _ => rfl, fun _ => rfl, fun _ => rfl⟩

/-- C10 (code-bug evaluation): `CardConstraint.UnmarshalJSON` panics on valid
JSON of the wrong shape — an empty array, an array of three numbers, a
two-element array, and `null` all panic (index out of range or failed type
assertion) — while a non-array document is a normal error and a well-shaped
array decodes. -/
theorem cardConstraintUnmarshal_panics_on_bad_shape :
    (cardConstraintUnmarshalJSON (.arr [])).isPanic = true
  ∧ (cardConstraintUnmarshalJSON (.arr [.num 1, .num 2, .num 3])).isPanic = true
  ∧ (cardConstraintUnmarshalJSON (.arr [.num 0, .str "any"])).isPanic = true
  ∧ (cardConstraintUnmarshalJSON Json.null).isPanic = true
  ∧ (cardConstraintUnmarshalJSON (.obj [])).isPanic = false
  ∧ cardConstraintUnmarshalJSON (.arr [.num 1, .str "any", .arr [.num 2, .num 3]])
      = .ok { index := 1, matchType := "any", fields := [2, 3] } := by
  refine ⟨rfl, rfl, rfl, rfl, rfl, ?_⟩
  decide

end Anki
